import Mathlib

/-
Verification development for the Confidential-Container Policy Core.

This file gives a shallow embedding of the Rust sources:
  - src/agent/src/policy.rs            (enforcer: gate, set-policy, attestation binding)
  - src/tools/genpolicy/src/registry.rs (generator: config merge, layer resolution)
  - src/tools/genpolicy/src/replica_set.rs (manifest injection for ReplicaSet)

External collaborators (the HTTP client, the OPA engine, serde, the SEV
firmware driver, the sha2 crate, logging) are modelled as explicit oracle
parameters; each embedded function consumes the outcome the collaborator
would produce and mirrors the Rust control flow on it.  Machine integers
are modelled as Nat / Int with explicit reductions where overflow matters.
-/

namespace CcPolicy

/-! ## Enforcer data model (src/agent/src/policy.rs) -/

/-- The attestation report; only the 32-byte host_data field is consumed by
the enforcer (`report.host_data` in check_policy_hash). Bytes are Nat. -/
structure Report where
  host_data : List Nat
deriving Repr, DecidableEq

/-- Outcome of one engine POST as seen by post_query, after the external
HTTP client and serde have run:
  - transportErr: `send()` returned Err;
  - httpResp status parsed: a response with the given status code, whose
    body parses as the AllowResponse \x7b"result": b\x7d exactly when
    parsed = some b, and is unparseable when parsed = none. -/
inductive EngineResponse where
  | transportErr
  | httpResp (status : Nat) (parsed : Option Bool)
deriving Repr, DecidableEq

/-- Observable effects of the enforcer on its collaborators; used to state
ordering properties of the replace-policy protocol.
  - putPolicy path body:   PUT of the rules text to the policies path;
  - deletePolicy path:     DELETE of the policies path;
  - postQuery ep input:    POST of input to the data path for endpoint ep;
  - checkHash policy:      one invocation of check_policy_hash (SHA-256 of
    the policy bytes, firmware report fetch, byte comparison). -/
inductive Action where
  | putPolicy (path body : String)
  | deletePolicy (path : String)
  | postQuery (ep input : String)
  | checkHash (policy : String)
deriving Repr, DecidableEq

/-- True exactly on the checkHash action. -/
def Action.isCheckHash : Action → Bool
  | .checkHash _ => true
  | _ => false

/-- The AgentPolicy singleton state. opa_client is the presence of the
connected client (Option reqwest::Client in the source); the log-file
handle is logging infrastructure, outside the modelled core. -/
structure AgentPolicy where
  allow_failures : Bool
  query_path : String
  policy_path : String
  opa_client : Bool
deriving Repr, DecidableEq

/-- AgentPolicy::new — allow_failures = false, no client, empty paths. -/
def AgentPolicy.new : AgentPolicy :=
  { allow_failures := false, query_path := "", policy_path := "", opa_client := false }

/-- static EMPTY_JSON_INPUT = "\x7b\"input\":\x7b\x7d\x7d". -/
def emptyJsonInput : String := "\x7b\"input\":\x7b\x7d\x7d"

/-- UTF-8 bytes of a string, as Nat (policy.as_bytes() in the source). -/
def strBytes (s : String) : List Nat :=
  s.toUTF8.data.toList.map (fun b => b.toNat)

/-- check_policy_hash: hash the policy bytes with SHA-256 (the sha2 crate,
passed as the oracle sha256), fetch the attestation report with 64 zero
report-data bytes and VMPL 0 (fw models Firmware::open + get_report; none
is any firmware failure), and compare host_data to the digest. -/
def check_policy_hash (sha256 : List Nat → List Nat)
    (fw : List Nat → Nat → Option Report) (policy : String) : Except String Unit :=
  let digest := sha256 (strBytes policy)
  match fw (List.replicate 64 0) 0 with
  | none => Except.error "failed to get attestation report"
  | some report =>
    if report.host_data = digest then Except.ok ()
    else Except.error "Unexpected policy hash"

/-- AgentPolicy::post_query. Returns the decision together with the engine
actions performed. Mirrors the Rust control flow: no client → bail before
any POST; transport error and non-200 status → Err; parsed result=false
with allow_failures → Ok true; unparseable body → Ok allow_failures. -/
def AgentPolicy.post_query (p : AgentPolicy) (ep input : String)
    (resp : EngineResponse) : Except String Bool × List Action :=
  if p.opa_client then
    let acts := [Action.postQuery ep input]
    match resp with
    | .transportErr => (Except.error "policy: POST send failed", acts)
    | .httpResp status parsed =>
      if status ≠ 200 then
        (Except.error "policy: POST response status", acts)
      else
        match parsed with
        | some result =>
          if result = false ∧ p.allow_failures then (Except.ok true, acts)
          else (Except.ok result, acts)
        | none =>
          if p.allow_failures then (Except.ok true, acts)
          else (Except.ok false, acts)
  else
    (Except.error "Agent Policy is not initialized", [])

/-- AgentPolicy::allow_request: wrap the serialized request in the input
envelope, post it, and map an Err from post_query to deny (false). -/
def AgentPolicy.allow_request (p : AgentPolicy) (ep request : String)
    (resp : EngineResponse) : Bool × List Action :=
  let post_input := "\x7b\"input\":" ++ request ++ "\x7d"
  match p.post_query ep post_input resp with
  | (Except.error _, acts) => (false, acts)
  | (Except.ok allowed, acts) => (allowed, acts)

/-- AgentPolicy::set_policy: check_policy_hash first; then require the
client; DELETE the old rules, PUT the new ones (deleteOk / putOk are the
transport outcomes of the two sends), and re-derive allow_failures from
the AllowRequestsFailingPolicy probe (probe is that query's response). -/
def AgentPolicy.set_policy (p : AgentPolicy) (sha256 : List Nat → List Nat)
    (fw : List Nat → Nat → Option Report) (deleteOk putOk : Bool)
    (probe : EngineResponse) (policy : String) :
    Except String AgentPolicy × List Action :=
  match check_policy_hash sha256 fw policy with
  | Except.error e => (Except.error e, [Action.checkHash policy])
  | Except.ok () =>
    if p.opa_client then
      let acts0 := [Action.checkHash policy, Action.deletePolicy p.policy_path]
      if deleteOk then
        let acts1 := acts0 ++ [Action.putPolicy p.policy_path policy]
        if putOk then
          match p.post_query "AllowRequestsFailingPolicy" emptyJsonInput probe with
          | (Except.error e, acts2) => (Except.error e, acts1 ++ acts2)
          | (Except.ok b, acts2) =>
            (Except.ok { p with allow_failures := b }, acts1 ++ acts2)
        else (Except.error "policy: PUT send failed", acts1)
      else (Except.error "policy: DELETE send failed", acts0)
    else
      (Except.error "Agent Policy is not initialized", [Action.checkHash policy])

/-- ttrpc error codes surfaced by the rpc wrappers. -/
inductive TtrpcCode where
  | permissionDenied
  | invalidArgument
deriving Repr, DecidableEq

/-- do_set_policy: serialize the request (reqJson models
serde_json::to_string(req)), gate it through allow_request for endpoint
SetPolicyRequest against the current state, then run set_policy on the
request's policy text, mapping its error to INVALID_ARGUMENT. -/
def do_set_policy (p : AgentPolicy) (reqJson policyText : String)
    (gateResp : EngineResponse) (sha256 : List Nat → List Nat)
    (fw : List Nat → Nat → Option Report) (deleteOk putOk : Bool)
    (probe : EngineResponse) :
    Except (TtrpcCode × String) AgentPolicy × List Action :=
  match p.allow_request "SetPolicyRequest" reqJson gateResp with
  | (false, acts) =>
    (Except.error (TtrpcCode.permissionDenied, "SetPolicyRequest is blocked by policy"), acts)
  | (true, acts) =>
    match p.set_policy sha256 fw deleteOk putOk probe policyText with
    | (Except.error e, acts2) =>
      (Except.error (TtrpcCode.invalidArgument, e), acts ++ acts2)
    | (Except.ok q, acts2) => (Except.ok q, acts ++ acts2)

/-- Index of the first successful PUT among the retry attempts, scanning
at most fuel attempts starting at attempt i; putResults lists the send()
outcomes (missing entries are failures). -/
def firstSuccessFrom (putResults : List Bool) : Nat → Nat → Option Nat
  | 0, _ => none
  | fuel + 1, i =>
    if putResults.getD i false then some i
    else firstSuccessFrom putResults fuel (i + 1)

/-- AgentPolicy::initialize (named init here): build the query and policy
paths from the engine address and policy name, read the default policy
text (defaultPolicy models tokio::fs::read_to_string), PUT it up to 50
times, and on the first success attach the client and derive
allow_failures from the AllowRequestsFailingPolicy probe.  The optional
log-file opening and the OPA process spawn are external collaborators and
are not part of the modelled state. -/
def AgentPolicy.init (p : AgentPolicy) (opa_addr policy_name : String)
    (defaultPolicy : Except String String) (putResults : List Bool)
    (probe : EngineResponse) : Except String AgentPolicy × List Action :=
  let opa_uri := "http://" ++ opa_addr ++ "/v1"
  let qp := opa_uri ++ "/data" ++ policy_name ++ "/"
  let pp := opa_uri ++ "/policies" ++ policy_name
  match defaultPolicy with
  | Except.error e => (Except.error e, [])
  | Except.ok policy =>
    let p1 := { p with query_path := qp, policy_path := pp }
    match firstSuccessFrom putResults 50 0 with
    | none =>
      (Except.error "Failed to connect to OPA",
       (List.range 50).map (fun _ => Action.putPolicy pp policy))
    | some i =>
      let p2 := { p1 with opa_client := true }
      let putActs := (List.range (i + 1)).map (fun _ => Action.putPolicy pp policy)
      match p2.post_query "AllowRequestsFailingPolicy" emptyJsonInput probe with
      | (Except.error e, acts2) => (Except.error e, putActs ++ acts2)
      | (Except.ok b, acts2) =>
        (Except.ok { p2 with allow_failures := b }, putActs ++ acts2)

/-! ## CopyFile request rewriting (src/agent/src/policy.rs) -/

/-- CopyFileRequest from src/libs/protocols, restricted to the fields the
policy rewrite consumes.  data is the raw bytes vector. -/
structure CopyFileRequest where
  path : String
  file_size : Int
  file_mode : Nat
  dir_mode : Nat
  uid : Int
  gid : Int
  offset : Int
  data : List Nat
deriving Repr, DecidableEq

/-- S_IFLNK = 0o120000: the symbolic-link file-type bits. -/
def sIFLNK : Nat := 40960

/-- SFlag::from_bits_truncate(file_mode).contains(S_IFLNK): both S_IFLNK
bits are set in file_mode (the truncation keeps all file-type bits, so it
does not affect this test). -/
def modeHasSIFLNK (file_mode : Nat) : Bool :=
  Nat.land file_mode sIFLNK = sIFLNK

/-- JSON values appearing in the serialized PolicyCopyFileRequest
envelope.  path carries the bytes of a PathBuf (serde serializes a
PathBuf as the string holding those bytes). -/
inductive PValue where
  | str (s : String)
  | int (i : Int)
  | nat (n : Nat)
  | path (bytes : List Nat)
deriving Repr, DecidableEq

/-- The symlink_src computation in is_allowed_copy_file: the request's
data bytes when the file mode has the S_IFLNK bits, the empty PathBuf
otherwise. -/
def copyFileSymlinkSrc (req : CopyFileRequest) : List Nat :=
  if modeHasSIFLNK req.file_mode then req.data else []

/-- The serialized PolicyCopyFileRequest envelope, as the ordered list of
JSON fields serde derives from the struct declaration: path, file_size,
file_mode, dir_mode, uid, gid, offset, symlink_src — and no data field. -/
def policyCopyFileFields (req : CopyFileRequest) : List (String × PValue) :=
  [("path", PValue.str req.path),
   ("file_size", PValue.int req.file_size),
   ("file_mode", PValue.nat req.file_mode),
   ("dir_mode", PValue.nat req.dir_mode),
   ("uid", PValue.int req.uid),
   ("gid", PValue.int req.gid),
   ("offset", PValue.int req.offset),
   ("symlink_src", PValue.path (copyFileSymlinkSrc req))]

/-! ## Config merge (src/tools/genpolicy/src/registry.rs, Container::get_process) -/

/-- Image config properties (DockerImageConfig). -/
structure DockerImageConfig where
  User : Option String
  Tty : Option Bool
  Env : List String
  Cmd : Option (List String)
  WorkingDir : Option String
  Entrypoint : Option (List String)
deriving Repr, DecidableEq

/-- Container rootfs information (DockerRootfs). -/
structure DockerRootfs where
  type : String
  diff_ids : List String
deriving Repr, DecidableEq

/-- The fields of policy::KataProcess that get_process writes. -/
structure KataProcess where
  UID : Nat
  GID : Nat
  Terminal : Bool
  Env : List String
  Args : List String
  Cwd : String
deriving Repr, DecidableEq

/-- str::parse::\x3cu32\x3e: decimal digits only, value below 2^32. -/
def parseU32 (s : String) : Option Nat :=
  match s.toNat? with
  | some n => if n < 2 ^ 32 then some n else none
  | none => none

/-- The User-splitting prologue of get_process: split the image user on
":"; parse uid from the first element (uid = 0 on parse failure); when a
second element exists, parse gid with unwrap — a parse failure there is a
panic, modelled as none. -/
def applyImageUser (cfg : DockerImageConfig) (p : KataProcess) : Option KataProcess :=
  match cfg.User with
  | none => some p
  | some image_user =>
    if image_user = "" then some p
    else
      match image_user.splitOn ":" with
      | [] => some p
      | [u0] =>
        match parseU32 u0 with
        | some id => some { p with UID := id }
        | none => some { p with UID := 0 }
      | u0 :: u1 :: _ =>
        let p1 := match parseU32 u0 with
          | some id => { p with UID := id }
          | none => { p with UID := 0 }
        match parseU32 u1 with
        | some gid => some { p1 with GID := gid }
        | none => none

/-- Container::get_process on the embedded config: user, terminal, env,
args merge (entrypoint prepended unless the YAML supplied a command; cmd
appended only when the YAML supplied neither command nor args), cwd.
none models the gid-parse panic. -/
def get_process (cfg : DockerImageConfig) (process : KataProcess)
    (yaml_has_command yaml_has_args : Bool) : Option KataProcess :=
  match applyImageUser cfg process with
  | none => none
  | some p0 =>
    let p1 := { p0 with Terminal := cfg.Tty.getD false }
    let p2 := { p1 with Env := p1.Env ++ cfg.Env }
    let args0 := p2.Args
    let args1 := match cfg.Entrypoint with
      | some entry_points =>
        if yaml_has_command = false then entry_points ++ args0 else args0
      | none => args0
    let args2 :=
      if yaml_has_command then args1
      else if yaml_has_args then args1
      else match cfg.Cmd with
        | some commands => args1 ++ commands
        | none => args1
    let p3 := { p2 with Args := args2 }
    let p4 := match cfg.WorkingDir with
      | some working_dir =>
        if working_dir ≠ "" then { p3 with Cwd := working_dir } else p3
      | none => p3
    some p4

/-! ## Layer resolution (src/tools/genpolicy/src/registry.rs, get_image_layers) -/

/-- A manifest layer entry: its mediaType and digest. -/
structure ManifestLayer where
  mediaType : String
  digest : String
deriving Repr, DecidableEq

/-- This application's image layer properties (ImageLayer). -/
structure ImageLayer where
  diff_id : String
  verity_hash : String
deriving Repr, DecidableEq

/-- The gzip rootfs media type selected by get_image_layers. -/
def gzipMediaType : String := "application/vnd.docker.image.rootfs.diff.tar.gzip"

/-- The loop of get_image_layers: walk the manifest layers keeping
layer_index, which counts only gzip rootfs layers; for each gzip layer
take diff_ids[layer_index] (error "Too many Docker gzip layers" when out
of range) and the verity hash of its digest (vh models get_verity_hash,
which either returns the hash or panics). -/
def getImageLayersGo (diff_ids : List String) (vh : String → String) :
    Nat → List ManifestLayer → Except String (List ImageLayer)
  | _, [] => Except.ok []
  | i, l :: rest =>
    if l.mediaType = gzipMediaType then
      match diff_ids[i]? with
      | some d =>
        match getImageLayersGo diff_ids vh (i + 1) rest with
        | Except.ok v =>
          Except.ok ({ diff_id := d, verity_hash := vh l.digest } :: v)
        | Except.error e => Except.error e
      | none => Except.error "Too many Docker gzip layers"
    else getImageLayersGo diff_ids vh i rest

/-- get_image_layers over the manifest layer list and the config layer's
rootfs diff_ids. -/
def get_image_layers (layers : List ManifestLayer) (diff_ids : List String)
    (vh : String → String) : Except String (List ImageLayer) :=
  getImageLayersGo diff_ids vh 0 layers

/-! ## Layer streaming (src/tools/genpolicy/src/registry.rs, create_decompressed_layer_file) -/

/-- One chunk of a ReadContent stream: signed 64-bit offset and data. -/
structure Chunk where
  offset : Int
  data : List Nat
deriving Repr, DecidableEq

/-- The chunk-writing loop of create_decompressed_layer_file.  For each
chunk: when offset < 0 the code only prints "oop" and falls through; it
then seeks to (offset as u64) — the two's-complement reduction of the
i64 offset — and writes the chunk data.  The result is the list of
printed strings and the list of (seek position, bytes) writes; the loop
itself never returns an error for a negative offset. -/
def streamLayerChunks : List Chunk → List String × List (Nat × List Nat)
  | [] => ([], [])
  | c :: rest =>
    let pos := (c.offset % (2 : Int) ^ 64).toNat
    let (logs, writes) := streamLayerChunks rest
    if c.offset < 0 then ("oop" :: logs, (pos, c.data) :: writes)
    else (logs, (pos, c.data) :: writes)

/-- get_content (the manifest fetch in the same file), by contrast,
returns the error "Negative offset in chunk" on a negative first-chunk
offset instead of continuing. -/
def get_content_offset_check (chunks : List Chunk) : Except String (List Nat) :=
  match chunks with
  | [] => Except.error "Unable to find content for digest"
  | c :: _ =>
    if c.offset < 0 then Except.error "Negative offset in chunk"
    else Except.ok c.data

/-! ## ReplicaSet manifest injection (src/tools/genpolicy/src/replica_set.rs) -/

/-- Image config layer properties (DockerConfigLayer). -/
structure DockerConfigLayer where
  architecture : String
  config : DockerImageConfig
  rootfs : DockerRootfs
deriving Repr, DecidableEq

/-- Container image properties obtained from an OCI repository
(registry::Container). -/
structure RegistryContainer where
  config_layer : DockerConfigLayer
  image_layers : List ImageLayer
deriving Repr, DecidableEq

/-- Pod-template metadata: the annotations map plus the remaining
metadata fields, abstracted as the type parameter μ (obj_meta.rs is not
among the provided sources). -/
structure PodTemplateMeta (μ : Type) where
  annotations : List (String × String)
  other : μ
deriving Repr, DecidableEq

/-- Pod-template spec: the container list (pod::Container is not among
the provided sources, so the container type is a parameter C) and the
optional volumes of type V. -/
structure PodTemplateSpecInner (C V : Type) where
  containers : List C
  volumes : Option V
deriving Repr, DecidableEq

/-- pod_template::PodTemplateSpec: metadata and spec. -/
structure PodTemplateSpec (μ C V : Type) where
  metadata : PodTemplateMeta μ
  spec : PodTemplateSpecInner C V
deriving Repr, DecidableEq

/-- ReplicaSetSpec: selector (abstract type σ), template, optional
replicas and minReadySeconds. -/
structure ReplicaSetSpec (σ μ C V : Type) where
  selector : σ
  template : PodTemplateSpec μ C V
  replicas : Option Int
  minReadySeconds : Option Int
deriving Repr, DecidableEq

/-- ReplicaSet: apiVersion, kind, metadata (abstract type α), spec, and
the registry containers attached during initialization. -/
structure ReplicaSet (α σ μ C V : Type) where
  apiVersion : String
  kind : String
  metadata : α
  spec : ReplicaSetSpec σ μ C V
  registry_containers : List RegistryContainer
deriving Repr, DecidableEq

/-- The standard base64 alphabet. -/
def b64Alphabet : List Char :=
  "ABCDEFGHIJKLMNOPQRSTUVWXYZabcdefghijklmnopqrstuvwxyz0123456789+/".toList

/-- The base64 character for a 6-bit value. -/
def b64Char (n : Nat) : Char := b64Alphabet.getD n 'A'

/-- Standard-alphabet, padded base64 of a byte list
(base64::engine::general_purpose::STANDARD.encode). -/
def base64EncodeChars : List Nat → List Char
  | [] => []
  | [a] => [b64Char (a / 4), b64Char (a % 4 * 16), '=', '=']
  | [a, b] => [b64Char (a / 4), b64Char (a % 4 * 16 + b / 16), b64Char (b % 16 * 4), '=']
  | a :: b :: c :: rest =>
    b64Char (a / 4) :: b64Char (a % 4 * 16 + b / 16) ::
      b64Char (b % 16 * 4 + c / 64) :: b64Char (c % 64) :: base64EncodeChars rest

/-- Standard base64 of a byte list, as a string. -/
def base64Encode (bytes : List Nat) : String := String.mk (base64EncodeChars bytes)

/-- Modelled from the spec: the well-known policy-annotation key.  The
spec names it only as an external collaborator ("the annotation key is
the well-known policy-annotation name"); the defining source is not
among the provided files. -/
def policyAnnotKey : String := "io.katacontainers.config.agent.policy"

/-- Modelled from the spec: add_policy_annotation on the pod template's
metadata (pod_template.rs is not among the provided sources).  Per the
spec, "the annotation is placed on the pod-template's metadata" with the
well-known key and the base64 value; other metadata is untouched. -/
def add_policy_annot (annots : List (String × String)) (v : String) :
    List (String × String) :=
  annots ++ [(policyAnnotKey, v)]

/-- The container loop of ReplicaSet::generate_policy: for each i below
containers.len(), call policy::get_container_policy with containers[i],
i == 0 as the pause-container flag, and registry_containers[i] (an
out-of-range index is a Rust panic).  gcp is the oracle for
get_container_policy, whose defining source (genpolicy policy.rs) is not
among the provided files; γ is its ContainerPolicy result type. -/
def policyContainersLoop {C γ : Type}
    (gcp : C → Bool → RegistryContainer → Except String γ)
    (regs : List RegistryContainer) :
    Nat → List C → Except String (List γ)
  | _, [] => Except.ok []
  | i, c :: cs =>
    match regs[i]? with
    | none => Except.error "panic: registry_containers index out of range"
    | some rc =>
      match gcp c (i == 0) rc with
      | Except.error e => Except.error e
      | Except.ok pc =>
        match policyContainersLoop gcp regs (i + 1) cs with
        | Except.error e => Except.error e
        | Except.ok pcs => Except.ok (pc :: pcs)

/-- ReplicaSet::generate_policy: build the per-container policies, render
policy_data as pretty JSON (jsonPretty models serde_json::to_string_pretty),
concatenate with the rules text, optionally export the decoded policy
(exportStep is the outcome of policy::export_decoded_policy, run only
when an output policy file was requested), base64-encode the policy,
add the policy annotation to the pod template's metadata, and remove the
container at index 0 (Vec::remove(0) on an empty Vec is a panic). -/
def ReplicaSet.generate_policy {α σ μ C V γ : Type}
    (rs : ReplicaSet α σ μ C V) (rules : String)
    (gcp : C → Bool → RegistryContainer → Except String γ)
    (jsonPretty : List γ → String)
    (outputPolicyFile : Bool) (exportResult : Except String Unit) :
    Except String (ReplicaSet α σ μ C V) :=
  match policyContainersLoop gcp rs.registry_containers 0
      rs.spec.template.spec.containers with
  | Except.error e => Except.error e
  | Except.ok pcs =>
    let json_data := jsonPretty pcs
    let policy := rules ++ "\npolicy_data := " ++ json_data
    let exportStep : Except String Unit :=
      if outputPolicyFile then exportResult else Except.ok ()
    match exportStep with
    | Except.error e => Except.error e
    | Except.ok () =>
      let encoded_policy := base64Encode (strBytes policy)
      match rs.spec.template.spec.containers with
      | [] => Except.error "panic: remove called on empty containers Vec"
      | _ :: rest =>
        Except.ok
          { rs with
            spec :=
              { rs.spec with
                template :=
                  { metadata :=
                      { rs.spec.template.metadata with
                        annotations := add_policy_annot
                          rs.spec.template.metadata.annotations encoded_policy }
                    spec :=
                      { rs.spec.template.spec with containers := rest } } } }

/-! ## Theorems -/

/-- C3: for every CopyFileRequest, the serialized PolicyCopyFileRequest
envelope never contains a data field; when the file_mode bits contain
S_IFLNK the symlink_src field carries the request's data bytes (the
string decoding of the data vector), and otherwise symlink_src is the
empty path. -/
theorem c3_copy_file_envelope (req : CopyFileRequest) :
    (policyCopyFileFields req).map Prod.fst =
      ["path", "file_size", "file_mode", "dir_mode", "uid", "gid", "offset",
       "symlink_src"] ∧
    "data" ∉ (policyCopyFileFields req).map Prod.fst ∧
    (policyCopyFileFields req).lookup "symlink_src" =
      some (PValue.path
        (if modeHasSIFLNK req.file_mode then req.data else [])) := by
  refine ⟨rfl, ?_, ?_⟩
  · simp [policyCopyFileFields]
  · simp [policyCopyFileFields, copyFileSymlinkSrc, List.lookup]

/-- C8, evaluated at the failing input: the chunk-writing loop of
create_decompressed_layer_file does not fail on a chunk with offset -1;
it prints "oop" and writes the chunk at position 2^64 - 1 (the i64
offset cast to u64).  The manifest-fetching get_content in the same
file, by contrast, does fail on a negative offset. -/
theorem c8_negative_offset_not_fatal :
    streamLayerChunks [{ offset := -1, data := [7] }] =
      (["oop"], [(2 ^ 64 - 1, [7])]) ∧
    get_content_offset_check [{ offset := -1, data := [7] }] =
      Except.error "Negative offset in chunk" := by
  exact ⟨by decide, by rfl⟩

/-- A concrete initialized enforcer state with allow_failures = true,
used to instantiate the gate theorems. -/
def gateStateOpen : AgentPolicy :=
  { allow_failures := true,
    query_path := "http://127.0.0.1:8181/v1/data/agent_policy/",
    policy_path := "http://127.0.0.1:8181/v1/policies/agent_policy",
    opa_client := true }

/-- C2 (counterexample): the claim predicts that an HTTP non-200 engine
response with allow_failures = true yields permit; on the code, post_query
propagates the non-200 status as an error and allow_request maps it to
deny, so the gate returns false. -/
theorem c2_counterexample :
    gateStateOpen.allow_failures = true ∧
    (gateStateOpen.allow_request "CreateContainerRequest" "null"
      (EngineResponse.httpResp 500 none)).1 = false := by
  exact ⟨rfl, rfl⟩

/-- The gate decision the code actually implements: allow iff the engine
answered HTTP 200 and either result = true, or allow_failures is set and
the result was false or the body unparseable.  Transport errors and
non-200 statuses always deny, regardless of allow_failures. -/
def gateDecision (allow_failures : Bool) : EngineResponse → Bool
  | .transportErr => false
  | .httpResp status parsed =>
    if status = 200 then
      match parsed with
      | some result => result || allow_failures
      | none => allow_failures
    else false

/-- C2 (amended): for every initialized enforcer state, endpoint,
request and engine response, the gate decision equals gateDecision:
allow iff HTTP 200 and (result = true, or allow_failures and (result =
false or unparseable)); engine call failures (transport error or
non-200) always yield deny. -/
theorem c2_gate_characterization (p : AgentPolicy) (h : p.opa_client = true)
    (ep request : String) (resp : EngineResponse) :
    (p.allow_request ep request resp).1 = gateDecision p.allow_failures resp := by
  cases resp with
  | transportErr => simp [AgentPolicy.allow_request, AgentPolicy.post_query, h, gateDecision]
  | httpResp status parsed =>
    by_cases hs : status = 200
    · subst hs
      cases parsed with
      | none =>
        by_cases haf : p.allow_failures <;>
          simp [AgentPolicy.allow_request, AgentPolicy.post_query, h, gateDecision, haf]
      | some result =>
        cases result <;> by_cases haf : p.allow_failures <;>
          simp [AgentPolicy.allow_request, AgentPolicy.post_query, h, gateDecision, haf]
    · simp [AgentPolicy.allow_request, AgentPolicy.post_query, h, gateDecision, hs]

/-- Witness for C2 (amended): at the concrete open state, an HTTP 200
response with result = false is permitted (allow_failures override), as
gateDecision predicts. -/
theorem c2_gate_characterization_witness :
    (gateStateOpen.allow_request "CreateContainerRequest" "null"
      (EngineResponse.httpResp 200 (some false))).1 =
      gateDecision true (EngineResponse.httpResp 200 (some false)) :=
  c2_gate_characterization gateStateOpen rfl "CreateContainerRequest" "null"
    (EngineResponse.httpResp 200 (some false))

/-- C9: before initialization completes (opa_client absent), every gated
request is denied: post_query returns the not-initialized error with no
engine action, allow_request maps it to false, and set_policy fails with
its only action being the attestation hash check — it never contacts the
engine.  The fresh AgentPolicy::new state is of this shape, with
allow_failures at its initial value false. -/
theorem c9_uninitialized_denies (p : AgentPolicy) (h : p.opa_client = false)
    (ep input request policy : String) (resp probe : EngineResponse)
    (sha256 : List Nat → List Nat) (fw : List Nat → Nat → Option Report)
    (deleteOk putOk : Bool) :
    p.post_query ep input resp =
      (Except.error "Agent Policy is not initialized", []) ∧
    (p.allow_request ep request resp).1 = false ∧
    (p.set_policy sha256 fw deleteOk putOk probe policy).1.isOk = false ∧
    (p.set_policy sha256 fw deleteOk putOk probe policy).2 =
      [Action.checkHash policy] ∧
    AgentPolicy.new.opa_client = false ∧
    AgentPolicy.new.allow_failures = false := by
  refine ⟨?_, ?_, ?_, ?_, rfl, rfl⟩
  · simp [AgentPolicy.post_query, h]
  · simp [AgentPolicy.allow_request, AgentPolicy.post_query, h]
  · unfold AgentPolicy.set_policy
    cases hc : check_policy_hash sha256 fw policy with
    | error e => simp [Except.isOk, Except.toBool]
    | ok u => cases u; simp [h, Except.isOk, Except.toBool]
  · unfold AgentPolicy.set_policy
    cases hc : check_policy_hash sha256 fw policy with
    | error e => simp
    | ok u => cases u; simp [h]

/-- Witness for C9: the fresh state denies a concrete request and fails
a concrete set_policy without touching the engine. -/
theorem c9_uninitialized_denies_witness :
    AgentPolicy.new.post_query "CreateContainerRequest" "null"
      (EngineResponse.httpResp 200 (some true)) =
      (Except.error "Agent Policy is not initialized", []) ∧
    (AgentPolicy.new.allow_request "CreateContainerRequest" "null"
      (EngineResponse.httpResp 200 (some true))).1 = false ∧
    (AgentPolicy.new.set_policy (fun _ => List.replicate 32 0)
      (fun _ _ => some { host_data := List.replicate 32 0 }) true true
      (EngineResponse.httpResp 200 (some true)) "package agent_policy").1.isOk
      = false ∧
    (AgentPolicy.new.set_policy (fun _ => List.replicate 32 0)
      (fun _ _ => some { host_data := List.replicate 32 0 }) true true
      (EngineResponse.httpResp 200 (some true)) "package agent_policy").2 =
      [Action.checkHash "package agent_policy"] ∧
    AgentPolicy.new.opa_client = false ∧
    AgentPolicy.new.allow_failures = false :=
  c9_uninitialized_denies AgentPolicy.new rfl "CreateContainerRequest" "null"
    "null" "package agent_policy" (EngineResponse.httpResp 200 (some true))
    (EngineResponse.httpResp 200 (some true)) (fun _ => List.replicate 32 0)
    (fun _ _ => some { host_data := List.replicate 32 0 }) true true

/-! ### Shared lemmas about the enforcer's action traces -/

/-- post_query performs exactly one engine POST when a client is
attached, and none otherwise. -/
theorem post_query_acts (p : AgentPolicy) (ep input : String)
    (resp : EngineResponse) :
    (p.post_query ep input resp).2 =
      if p.opa_client then [Action.postQuery ep input] else [] := by
  by_cases h : p.opa_client = true
  · cases resp with
    | transportErr => simp [AgentPolicy.post_query, h]
    | httpResp status parsed =>
      by_cases hs : status = 200 <;>
        cases parsed <;>
          simp [AgentPolicy.post_query, h, hs] <;> split <;> rfl
  · simp at h
    simp [AgentPolicy.post_query, h]

/-- allow_request performs exactly the wrapped-input POST when a client
is attached, and nothing otherwise. -/
theorem allow_request_acts (p : AgentPolicy) (ep request : String)
    (resp : EngineResponse) :
    (p.allow_request ep request resp).2 =
      if p.opa_client then
        [Action.postQuery ep ("\x7b\"input\":" ++ request ++ "\x7d")]
      else [] := by
  unfold AgentPolicy.allow_request
  rcases hq : p.post_query ep ("\x7b\"input\":" ++ request ++ "\x7d") resp
    with ⟨r, a⟩
  have ha := post_query_acts p ep ("\x7b\"input\":" ++ request ++ "\x7d") resp
  rw [hq] at ha
  cases r <;> simp [hq, ha]

/-- set_policy's first action is always the attestation hash check. -/
theorem set_policy_trace_head (p : AgentPolicy) (sha256 : List Nat → List Nat)
    (fw : List Nat → Nat → Option Report) (deleteOk putOk : Bool)
    (probe : EngineResponse) (policy : String) :
    (p.set_policy sha256 fw deleteOk putOk probe policy).2.head? =
      some (Action.checkHash policy) := by
  unfold AgentPolicy.set_policy
  repeat' split
  all_goals rfl

/-- When the attestation hash check fails, set_policy returns that error
and its trace is the hash check alone: no DELETE, PUT or query reaches
the engine, so the previous policy stays installed. -/
theorem set_policy_hash_error (p : AgentPolicy) (sha256 : List Nat → List Nat)
    (fw : List Nat → Nat → Option Report) (deleteOk putOk : Bool)
    (probe : EngineResponse) (policy e : String)
    (he : check_policy_hash sha256 fw policy = Except.error e) :
    p.set_policy sha256 fw deleteOk putOk probe policy =
      (Except.error e, [Action.checkHash policy]) := by
  unfold AgentPolicy.set_policy
  rw [he]

/-- A successful set_policy implies the attestation hash check passed. -/
theorem set_policy_ok_hash (p : AgentPolicy) (sha256 : List Nat → List Nat)
    (fw : List Nat → Nat → Option Report) (deleteOk putOk : Bool)
    (probe : EngineResponse) (policy : String) (q : AgentPolicy)
    (tr : List Action)
    (h : p.set_policy sha256 fw deleteOk putOk probe policy = (Except.ok q, tr)) :
    check_policy_hash sha256 fw policy = Except.ok () := by
  cases hc : check_policy_hash sha256 fw policy with
  | ok u => cases u; rfl
  | error e =>
    rw [set_policy_hash_error p sha256 fw deleteOk putOk probe policy e hc] at h
    simp at h

/-- On an initialized enforcer with a passing hash check and working
transport, set_policy deletes the old rules, puts the new ones, probes
AllowRequestsFailingPolicy, in that order after the hash check, and on
success stores the probe's answer in allow_failures. -/
theorem set_policy_success_shape (p : AgentPolicy) (h : p.opa_client = true)
    (sha256 : List Nat → List Nat) (fw : List Nat → Nat → Option Report)
    (probe : EngineResponse) (policy : String)
    (hc : check_policy_hash sha256 fw policy = Except.ok ()) :
    p.set_policy sha256 fw true true probe policy =
      (match (p.post_query "AllowRequestsFailingPolicy" emptyJsonInput probe).1 with
        | Except.error e => Except.error e
        | Except.ok b => Except.ok { p with allow_failures := b },
       [Action.checkHash policy, Action.deletePolicy p.policy_path,
        Action.putPolicy p.policy_path policy,
        Action.postQuery "AllowRequestsFailingPolicy" emptyJsonInput]) := by
  unfold AgentPolicy.set_policy
  rw [hc]
  have ha := post_query_acts p "AllowRequestsFailingPolicy" emptyJsonInput probe
  rw [h] at ha
  simp only [if_true] at ha
  rcases hq : p.post_query "AllowRequestsFailingPolicy" emptyJsonInput probe
    with ⟨r, a⟩
  rw [hq] at ha
  simp at ha
  cases r <;> simp [h, hq, ha]

/-- The startup path never invokes the attestation hash check: no action
of any initialize run is a checkHash action. -/
theorem init_no_hash_check (p : AgentPolicy) (opa_addr policy_name : String)
    (defaultPolicy : Except String String) (putResults : List Bool)
    (probe : EngineResponse) :
    (AgentPolicy.init p opa_addr policy_name defaultPolicy putResults
      probe).2.all (fun a => !a.isCheckHash) = true := by
  unfold AgentPolicy.init
  cases defaultPolicy with
  | error e => rfl
  | ok policy =>
    cases hf : firstSuccessFrom putResults 50 0 with
    | none =>
      simp [List.all_eq_true, List.mem_map, Action.isCheckHash]
    | some i =>
      rcases hq : AgentPolicy.post_query _ "AllowRequestsFailingPolicy"
        emptyJsonInput probe with ⟨r, a⟩
      have ha := post_query_acts
        { p with
          query_path := "http://" ++ opa_addr ++ "/v1" ++ "/data" ++ policy_name ++ "/",
          policy_path := "http://" ++ opa_addr ++ "/v1" ++ "/policies" ++ policy_name,
          opa_client := true }
        "AllowRequestsFailingPolicy" emptyJsonInput probe
      rw [hq] at ha
      simp only [if_true] at ha
      cases r <;>
        simp [hq, ha, List.all_append, List.all_eq_true, List.mem_map,
          Action.isCheckHash]

/-! ### C1: attestation binding of the active policy -/

/-- The AllowRequestsFailingPolicy probe answering HTTP 200, result
false. -/
def probeFalse : EngineResponse := EngineResponse.httpResp 200 (some false)

/-- A concrete startup run: default policy read successfully, first PUT
accepted by the engine, probe answers false. -/
def initRun : Except String AgentPolicy × List Action :=
  AgentPolicy.new.init "127.0.0.1:8181" "/agent_policy"
    (Except.ok "package agent_policy") [true] probeFalse

/-- C1 (counterexample): initialize activates the default policy with no
SHA-256 / host-data comparison at all.  The concrete startup run
succeeds — the default policy is PUT to the engine and the enforcer
becomes active — yet its action trace contains no hash-check action, so
a default policy whose SHA-256 differs from the report's host-data field
still becomes active. -/
theorem c1_counterexample :
    initRun.1 = Except.ok
      { allow_failures := false,
        query_path := "http://127.0.0.1:8181/v1/data/agent_policy/",
        policy_path := "http://127.0.0.1:8181/v1/policies/agent_policy",
        opa_client := true } ∧
    initRun.2 =
      [Action.putPolicy "http://127.0.0.1:8181/v1/policies/agent_policy"
        "package agent_policy",
       Action.postQuery "AllowRequestsFailingPolicy" emptyJsonInput] ∧
    initRun.2.all (fun a => !a.isCheckHash) = true := by
  exact ⟨rfl, rfl, rfl⟩

/-- C1 (amended): the SHA-256 / host-data attestation check guards only
replacement policies.  set_policy always runs check_policy_hash first
(its trace starts with the hash-check), a mismatch aborts with that
error before any engine action, and a successful set_policy implies the
check passed; the startup path, by contrast, installs the default policy
without ever invoking the hash check. -/
theorem c1_hash_check_scope (p : AgentPolicy) (sha256 : List Nat → List Nat)
    (fw : List Nat → Nat → Option Report) (deleteOk putOk : Bool)
    (probe : EngineResponse) (policy : String) :
    (p.set_policy sha256 fw deleteOk putOk probe policy).2.head? =
      some (Action.checkHash policy) ∧
    (∀ e, check_policy_hash sha256 fw policy = Except.error e →
      p.set_policy sha256 fw deleteOk putOk probe policy =
        (Except.error e, [Action.checkHash policy])) ∧
    (∀ q tr,
      p.set_policy sha256 fw deleteOk putOk probe policy = (Except.ok q, tr) →
      check_policy_hash sha256 fw policy = Except.ok ()) ∧
    (∀ opa_addr policy_name defaultPolicy putResults pr,
      (AgentPolicy.init p opa_addr policy_name defaultPolicy putResults
        pr).2.all (fun a => !a.isCheckHash) = true) :=
  ⟨set_policy_trace_head p sha256 fw deleteOk putOk probe policy,
   fun e he => set_policy_hash_error p sha256 fw deleteOk putOk probe policy e he,
   fun q tr h => set_policy_ok_hash p sha256 fw deleteOk putOk probe policy q tr h,
   fun pa pn dp prs pr => init_no_hash_check p pa pn dp prs pr⟩

/-- SHA-256 oracle returning 32 one-bytes, and firmware whose host_data
is 32 zero bytes: a guaranteed mismatch. -/
def shaOnes : List Nat → List Nat := fun _ => List.replicate 32 1

/-- Firmware oracle whose report carries 32 zero host-data bytes. -/
def fwZero : List Nat → Nat → Option Report :=
  fun _ _ => some { host_data := List.replicate 32 0 }

/-- Witness for C1 (amended): at a concrete mismatch, set_policy aborts
with the hash error and performs only the hash check. -/
theorem c1_hash_check_scope_witness :
    gateStateOpen.set_policy shaOnes fwZero true true probeFalse
      "package agent_policy" =
      (Except.error "Unexpected policy hash",
       [Action.checkHash "package agent_policy"]) :=
  (c1_hash_check_scope gateStateOpen shaOnes fwZero true true probeFalse
    "package agent_policy").2.1 "Unexpected policy hash" (by rfl)

/-! ### C4: the replace-policy protocol -/

/-- C4: the replace-policy protocol's order.  On an initialized
enforcer: (1) the first action of do_set_policy is the gate query for
SetPolicyRequest, posted to the engine that still holds the current
policy; (2) a denied gate aborts with permission-denied after that one
query; (3) an attestation hash mismatch on the new policy aborts with an
invalid-argument error and no DELETE or PUT ever reaches the engine, so
the previous policy remains installed; (4) when the gate allows, the
hash check passes and the transport works, the actions are exactly gate
query, hash check, DELETE of the old rules, PUT of the new rules, then
the AllowRequestsFailingPolicy probe — whose answer becomes the new
allow_failures value on success. -/
theorem c4_replace_policy_order (p : AgentPolicy) (h : p.opa_client = true)
    (reqJson pol : String) (gateResp : EngineResponse)
    (sha256 : List Nat → List Nat) (fw : List Nat → Nat → Option Report)
    (deleteOk putOk : Bool) (probe : EngineResponse) :
    (do_set_policy p reqJson pol gateResp sha256 fw deleteOk putOk
        probe).2.head? =
      some (Action.postQuery "SetPolicyRequest"
        ("\x7b\"input\":" ++ reqJson ++ "\x7d")) ∧
    ((p.allow_request "SetPolicyRequest" reqJson gateResp).1 = false →
      do_set_policy p reqJson pol gateResp sha256 fw deleteOk putOk probe =
        (Except.error (TtrpcCode.permissionDenied,
          "SetPolicyRequest is blocked by policy"),
         [Action.postQuery "SetPolicyRequest"
           ("\x7b\"input\":" ++ reqJson ++ "\x7d")])) ∧
    (∀ e, (p.allow_request "SetPolicyRequest" reqJson gateResp).1 = true →
      check_policy_hash sha256 fw pol = Except.error e →
      do_set_policy p reqJson pol gateResp sha256 fw deleteOk putOk probe =
        (Except.error (TtrpcCode.invalidArgument, e),
         [Action.postQuery "SetPolicyRequest"
            ("\x7b\"input\":" ++ reqJson ++ "\x7d"),
          Action.checkHash pol])) ∧
    ((p.allow_request "SetPolicyRequest" reqJson gateResp).1 = true →
      check_policy_hash sha256 fw pol = Except.ok () →
      deleteOk = true → putOk = true →
      (do_set_policy p reqJson pol gateResp sha256 fw deleteOk putOk
          probe).2 =
        [Action.postQuery "SetPolicyRequest"
           ("\x7b\"input\":" ++ reqJson ++ "\x7d"),
         Action.checkHash pol,
         Action.deletePolicy p.policy_path,
         Action.putPolicy p.policy_path pol,
         Action.postQuery "AllowRequestsFailingPolicy" emptyJsonInput] ∧
      (∀ b, (p.post_query "AllowRequestsFailingPolicy" emptyJsonInput
          probe).1 = Except.ok b →
        (do_set_policy p reqJson pol gateResp sha256 fw deleteOk putOk
            probe).1 = Except.ok { p with allow_failures := b })) := by
  have hga := allow_request_acts p "SetPolicyRequest" reqJson gateResp
  rw [h] at hga
  simp only [if_true] at hga
  rcases hg : p.allow_request "SetPolicyRequest" reqJson gateResp with ⟨gb, gacts⟩
  rw [hg] at hga
  simp at hga
  subst hga
  refine ⟨?_, ?_, ?_, ?_⟩
  · unfold do_set_policy
    rw [hg]
    cases gb
    · rfl
    · rcases hsp : p.set_policy sha256 fw deleteOk putOk probe pol with ⟨r, acts2⟩
      cases r <;> simp [hsp]
  · intro hfalse
    simp at hfalse
    subst hfalse
    unfold do_set_policy
    rw [hg]
  · intro e htrue he
    simp at htrue
    subst htrue
    unfold do_set_policy
    rw [hg, set_policy_hash_error p sha256 fw deleteOk putOk probe pol e he]
    rfl
  · intro htrue hc hd hp
    simp at htrue
    subst htrue
    subst hd
    subst hp
    have hs := set_policy_success_shape p h sha256 fw probe pol hc
    constructor
    · unfold do_set_policy
      rw [hg, hs]
      rcases hq : (p.post_query "AllowRequestsFailingPolicy" emptyJsonInput
        probe).1 with e | b <;> simp [hq]
    · intro b hb
      unfold do_set_policy
      rw [hg, hs, hb]

/-- SHA-256 oracle returning 32 zero bytes; together with fwZero the
attestation check passes. -/
def shaZero : List Nat → List Nat := fun _ => List.replicate 32 0

/-- A gate response permitting the request: HTTP 200, result true. -/
def gateTrue : EngineResponse := EngineResponse.httpResp 200 (some true)

/-- Witness for C4: a fully successful concrete replacement run — gate
allowed, hash check passed, transport fine — produces exactly the
five-action trace and stores the probe's answer false... (the probe
returns result false but gateStateOpen.allow_failures is true, so the
override stores true). -/
theorem c4_replace_policy_order_witness :
    (do_set_policy gateStateOpen "null" "package agent_policy" gateTrue
        shaZero fwZero true true probeFalse).2 =
      [Action.postQuery "SetPolicyRequest" "\x7b\"input\":null\x7d",
       Action.checkHash "package agent_policy",
       Action.deletePolicy "http://127.0.0.1:8181/v1/policies/agent_policy",
       Action.putPolicy "http://127.0.0.1:8181/v1/policies/agent_policy"
         "package agent_policy",
       Action.postQuery "AllowRequestsFailingPolicy" emptyJsonInput] ∧
    (do_set_policy gateStateOpen "null" "package agent_policy" gateTrue
        shaZero fwZero true true probeFalse).1 =
      Except.ok { gateStateOpen with allow_failures := true } := by
  have hmain := c4_replace_policy_order gateStateOpen rfl "null"
    "package agent_policy" gateTrue shaZero fwZero true true probeFalse
  have hpart := hmain.2.2.2 (by rfl) (by rfl) rfl rfl
  exact ⟨hpart.1, hpart.2 true (by rfl)⟩

/-! ### C5 / C6: config merge -/

/-- The user-splitting prologue only writes UID and GID: the Args field
survives it unchanged. -/
theorem applyImageUser_args (cfg : DockerImageConfig) (p q : KataProcess)
    (h : applyImageUser cfg p = some q) : q.Args = p.Args := by
  unfold applyImageUser at h
  repeat' split at h
  all_goals (cases h <;> rfl)

/-- The args part of get_process: the result's Args are the entrypoint
(when the YAML supplied no command), then the pre-existing args, then
the image cmd (when the YAML supplied neither command nor args). -/
theorem get_process_args (cfg : DockerImageConfig) (p q : KataProcess)
    (yaml_has_command yaml_has_args : Bool)
    (h : get_process cfg p yaml_has_command yaml_has_args = some q) :
    q.Args =
      (if yaml_has_command then [] else cfg.Entrypoint.getD []) ++ p.Args ++
      (if yaml_has_command || yaml_has_args then [] else cfg.Cmd.getD []) := by
  unfold get_process at h
  rcases hu : applyImageUser cfg p with _ | p0 <;> rw [hu] at h
  · cases h
  · have hargs : p0.Args = p.Args := applyImageUser_args cfg p p0 hu
    cases h
    rcases he : cfg.Entrypoint with _ | eps <;>
      rcases hc : cfg.Cmd with _ | cmds <;>
        rcases hw : cfg.WorkingDir with _ | wd <;>
          cases yaml_has_command <;> cases yaml_has_args <;>
            simp [he, hc, hw, hargs] <;> split <;> simp [hargs]

/-- C5: in the config merge, for every image config and manifest hints,
the effective args are: the image entrypoint entries in their original
order prepended exactly when the manifest supplied no command, then the
pre-existing (manifest) args, then the image cmd entries appended
exactly when the manifest supplied neither command nor args; in all
other cases cmd and entrypoint leave args unchanged. -/
theorem c5_args_merge (cfg : DockerImageConfig) (p q : KataProcess)
    (yaml_has_command yaml_has_args : Bool)
    (h : get_process cfg p yaml_has_command yaml_has_args = some q) :
    q.Args =
      (if yaml_has_command then [] else cfg.Entrypoint.getD []) ++ p.Args ++
      (if yaml_has_command || yaml_has_args then [] else cfg.Cmd.getD []) :=
  get_process_args cfg p q yaml_has_command yaml_has_args h

/-- The image config of end-to-end scenario 1: entrypoint /bin/app, cmd
--flag, nothing else. -/
def scenario1Config : DockerImageConfig :=
  { User := none, Tty := none, Env := [], Cmd := some ["--flag"],
    WorkingDir := none, Entrypoint := some ["/bin/app"] }

/-- An empty starting process. -/
def emptyProcess : KataProcess :=
  { UID := 0, GID := 0, Terminal := false, Env := [], Args := [], Cwd := "" }

/-- Witness for C5: with no manifest command or args, the effective args
are the entrypoint followed by the cmd. -/
theorem c5_args_merge_witness :
    (get_process scenario1Config emptyProcess false false).map
        (fun q => q.Args) = some ["/bin/app", "--flag"] ∧
    (scenario1Config.Entrypoint.getD [] ++ emptyProcess.Args ++
        scenario1Config.Cmd.getD []) = ["/bin/app", "--flag"] := by
  refine ⟨?_, by decide⟩
  have hq : get_process scenario1Config emptyProcess false false =
      some { emptyProcess with Args := ["/bin/app", "--flag"] } := by rfl
  have := c5_args_merge scenario1Config emptyProcess
    { emptyProcess with Args := ["/bin/app", "--flag"] } false false hq
  rw [hq]
  simp [this]

/-- The image config C6 is about: a non-empty entrypoint. -/
def c6Config : DockerImageConfig :=
  { User := none, Tty := none, Env := [], Cmd := some ["imageCmd"],
    WorkingDir := none, Entrypoint := some ["/bin/app"] }

/-- The manifest-supplied args C6 is about. -/
def c6Process : KataProcess :=
  { UID := 0, GID := 0, Terminal := false, Env := [], Args := ["manifestArg"],
    Cwd := "" }

/-- C6 (counterexample): with a non-empty image entrypoint,
yaml_has_args = true and yaml_has_command = false, the claim predicts
effective args equal to the manifest args alone; the code instead
prepends the entrypoint: the result is /bin/app followed by manifestArg,
not manifestArg. -/
theorem c6_counterexample :
    (get_process c6Config c6Process false true).map (fun q => q.Args) =
      some ["/bin/app", "manifestArg"] ∧
    some ["/bin/app", "manifestArg"] ≠ some ["manifestArg"] := by
  exact ⟨rfl, by decide⟩

/-- C6 (amended): when the manifest supplies args but no command, only
the image cmd is ignored; the image entrypoint is still prepended, so
the effective args are the entrypoint entries followed by the
manifest-supplied args. -/
theorem c6_entrypoint_prepended (cfg : DockerImageConfig) (p q : KataProcess)
    (eps : List String) (he : cfg.Entrypoint = some eps)
    (h : get_process cfg p false true = some q) :
    q.Args = eps ++ p.Args := by
  have := get_process_args cfg p q false true h
  simpa [he] using this

/-- Witness for C6 (amended): the concrete config and process above. -/
theorem c6_entrypoint_prepended_witness :
    (get_process c6Config c6Process false true).map (fun q => q.Args) =
      some (["/bin/app"] ++ c6Process.Args) := by
  have hq : get_process c6Config c6Process false true =
      some { c6Process with Args := ["/bin/app", "manifestArg"] } := by rfl
  have := c6_entrypoint_prepended c6Config c6Process
    { c6Process with Args := ["/bin/app", "manifestArg"] } ["/bin/app"] rfl hq
  rw [hq]
  simp [this, c6Process]

/-! ### C7: positional diff-id assignment -/

/-- The ImageLayer built for a manifest layer and a diff-id. -/
def mkImageLayer (vh : String → String) (l : ManifestLayer) (d : String) :
    ImageLayer :=
  { diff_id := d, verity_hash := vh l.digest }

set_option maxRecDepth 4096 in
/-- Characterization of the get_image_layers loop from any starting
index: it succeeds exactly when the remaining gzip layers fit in the
remaining diff-ids, pairing them positionally. -/
theorem getImageLayersGo_spec (diff_ids : List String) (vh : String → String)
    (layers : List ManifestLayer) :
    ∀ i : Nat,
      getImageLayersGo diff_ids vh i layers =
        if (layers.filter
              (fun l => decide (l.mediaType = gzipMediaType))).length ≤
            (diff_ids.drop i).length
        then Except.ok (List.zipWith (mkImageLayer vh)
          (layers.filter (fun l => decide (l.mediaType = gzipMediaType)))
          (diff_ids.drop i))
        else Except.error "Too many Docker gzip layers" := by
  induction layers with
  | nil => intro i; simp [getImageLayersGo]
  | cons l rest ih =>
    intro i
    by_cases hm : l.mediaType = gzipMediaType
    · by_cases hi : i < diff_ids.length
      · have hget : diff_ids[i]? = some diff_ids[i] :=
          List.getElem?_eq_getElem hi
        have hdrop : diff_ids.drop i = diff_ids[i] :: diff_ids.drop (i + 1) :=
          List.drop_eq_getElem_cons hi
        have hfil : List.filter
            (fun x => decide (x.mediaType = gzipMediaType)) (l :: rest) =
            l :: List.filter (fun x => decide (x.mediaType = gzipMediaType))
              rest :=
          List.filter_cons_of_pos (by simpa using hm)
        rw [getImageLayersGo, if_pos hm, hget, ih (i + 1), hfil, hdrop]
        simp only [List.length_cons]
        by_cases hc : (rest.filter
            (fun x => decide (x.mediaType = gzipMediaType))).length ≤
            (diff_ids.drop (i + 1)).length
        · rw [if_pos hc, if_pos (Nat.succ_le_succ hc), List.zipWith_cons_cons]
          rfl
        · rw [if_neg hc,
            if_neg (fun hcon => hc (Nat.le_of_succ_le_succ hcon))]
      · have hget : diff_ids[i]? = none :=
          List.getElem?_eq_none (Nat.le_of_not_lt hi)
        have hlen : (diff_ids.drop i).length = 0 := by
          simp [List.length_drop, Nat.sub_eq_zero_of_le (Nat.le_of_not_lt hi)]
        rw [getImageLayersGo, if_pos hm, hget]
        rw [if_neg (by simp [hm, hlen])]
    · rw [getImageLayersGo, if_neg hm, ih i]
      simp [hm]

/-- C7: get_image_layers pairs the i-th gzip rootfs layer (counting only
layers of the gzip media type, in manifest order - non-gzip layers do
not advance the index) with the i-th rootfs diff-id, and fails with the
"Too many Docker gzip layers" error exactly when there are more gzip
layers than diff-ids. -/
theorem c7_positional_diff_ids (layers : List ManifestLayer)
    (diff_ids : List String) (vh : String → String) :
    get_image_layers layers diff_ids vh =
      if (layers.filter
            (fun l => decide (l.mediaType = gzipMediaType))).length ≤
          diff_ids.length
      then Except.ok (List.zipWith (mkImageLayer vh)
        (layers.filter (fun l => decide (l.mediaType = gzipMediaType)))
        diff_ids)
      else Except.error "Too many Docker gzip layers" := by
  have := getImageLayersGo_spec diff_ids vh layers 0
  simpa [get_image_layers] using this

/-! ### C10: ReplicaSet policy generation frame -/

/-- C10: a successful generate_policy changes the manifest in exactly
two ways — the base64-encoded policy annotation is appended to the pod
template's metadata annotations, and the container at index 0 is
removed from the template's container list (one fewer container than
before); every other field of the ReplicaSet is unchanged, as witnessed
by the record-update equality. -/
theorem c10_generate_policy_frame {α σ μ C V γ : Type}
    (rs rs2 : ReplicaSet α σ μ C V) (rules : String)
    (gcp : C → Bool → RegistryContainer → Except String γ)
    (jsonPretty : List γ → String) (outputPolicyFile : Bool)
    (exportResult : Except String Unit)
    (h : rs.generate_policy rules gcp jsonPretty outputPolicyFile
      exportResult = Except.ok rs2) :
    ∃ pcs, policyContainersLoop gcp rs.registry_containers 0
        rs.spec.template.spec.containers = Except.ok pcs ∧
      rs2 =
        { rs with
          spec :=
            { rs.spec with
              template :=
                { metadata :=
                    { rs.spec.template.metadata with
                      annotations := add_policy_annot
                        rs.spec.template.metadata.annotations
                        (base64Encode (strBytes (rules ++ "\npolicy_data := "
                          ++ jsonPretty pcs))) }
                  spec :=
                    { rs.spec.template.spec with
                      containers := rs.spec.template.spec.containers.tail } } } } ∧
      rs2.spec.template.spec.containers.length + 1 =
        rs.spec.template.spec.containers.length := by
  unfold ReplicaSet.generate_policy at h
  rcases hl : policyContainersLoop gcp rs.registry_containers 0
      rs.spec.template.spec.containers with e | pcs <;> rw [hl] at h
  · cases h
  · refine ⟨pcs, rfl, ?_⟩
    rcases hex : (if outputPolicyFile then exportResult
        else Except.ok ()) with e | u <;> rw [hex] at h
    · cases h
    · cases u
      rcases hcs : rs.spec.template.spec.containers with _ | ⟨c0, cs⟩ <;>
        rw [hcs] at h
      · cases h
      · cases h
        constructor
        · simp [hcs]
        · simp [hcs]

/-- Concrete ReplicaSet used to instantiate the frame theorem. -/
def rsExample : ReplicaSet Unit Unit Unit Nat Unit :=
  { apiVersion := "apps/v1", kind := "ReplicaSet", metadata := (),
    spec :=
      { selector := (),
        template :=
          { metadata := { annotations := [("app", "x")], other := () },
            spec := { containers := [7], volumes := none } },
        replicas := some 1, minReadySeconds := none },
    registry_containers :=
      [{ config_layer :=
           { architecture := "amd64",
             config :=
               { User := none, Tty := none, Env := [], Cmd := none,
                 WorkingDir := none, Entrypoint := none },
             rootfs := { type := "layers", diff_ids := [] } },
         image_layers := [] }] }

/-- Witness for C10: the frame equality holds on the concrete
one-container ReplicaSet with trivial container policies. -/
theorem c10_generate_policy_frame_witness :
    ∃ pcs, policyContainersLoop (fun _ _ _ => Except.ok 0)
        rsExample.registry_containers 0
        rsExample.spec.template.spec.containers = Except.ok pcs ∧
      { rsExample with
        spec :=
          { rsExample.spec with
            template :=
              { metadata :=
                  { rsExample.spec.template.metadata with
                    annotations := add_policy_annot
                      rsExample.spec.template.metadata.annotations
                      (base64Encode (strBytes ("rules"
                        ++ "\npolicy_data := " ++ "[]"))) }
                spec :=
                  { rsExample.spec.template.spec with
                    containers :=
                      rsExample.spec.template.spec.containers.tail } } } } =
        { rsExample with
          spec :=
            { rsExample.spec with
              template :=
                { metadata :=
                    { rsExample.spec.template.metadata with
                      annotations := add_policy_annot
                        rsExample.spec.template.metadata.annotations
                        (base64Encode (strBytes ("rules"
                          ++ "\npolicy_data := " ++ (fun _ => "[]") pcs))) }
                  spec :=
                    { rsExample.spec.template.spec with
                      containers :=
                        rsExample.spec.template.spec.containers.tail } } } } ∧
      ({ rsExample with
          spec :=
            { rsExample.spec with
              template :=
                { metadata :=
                    { rsExample.spec.template.metadata with
                      annotations := add_policy_annot
                        rsExample.spec.template.metadata.annotations
                        (base64Encode (strBytes ("rules"
                          ++ "\npolicy_data := " ++ "[]"))) }
                  spec :=
                    { rsExample.spec.template.spec with
                      containers :=
                        rsExample.spec.template.spec.containers.tail } } } }
        : ReplicaSet Unit Unit Unit Nat
          Unit).spec.template.spec.containers.length + 1 =
        rsExample.spec.template.spec.containers.length := by
  exact c10_generate_policy_frame rsExample _ "rules" (fun _ _ _ => Except.ok 0)
    (fun _ => "[]") false (Except.ok ()) (by rfl)

end CcPolicy
